import Mathlib

/-!
Verification development for the loopholelabs/s3 repository: a thin Go
wrapper over a minio S3 client, in three historical variants, plus two
configuration packages.  Each Go function is embedded as a pure Lean
function.  Network-facing calls are modelled by the request values the
wrapper hands to the backend SDK (bucket name, object name, listing
filter, content type), which is all the wrapper computes; the backend
session construction (minio.New) is modelled as an explicit outcome
parameter `backend : Except String Unit`.
-/

/-- A request the wrapper sends to the backend SDK for a single-object
operation: which backend bucket and which backend object name. -/
structure ObjectRequest where
  bucket : String
  objectName : String
deriving Repr, DecidableEq

/-- A put request additionally carries the content type placed in
minio.PutObjectOptions. -/
structure PutRequest where
  bucket : String
  objectName : String
  contentType : String
deriving Repr, DecidableEq

/-- A listing request: backend bucket and the Prefix filter placed in
minio.ListObjectsOptions. -/
structure ListRequest where
  bucket : String
  filter : String
deriving Repr, DecidableEq

namespace S3Wrap

/-! ### Variant A: `src/s3.go` — bucket-fixed `S3` with a Disabled flag -/

/-- Options of src/s3.go. -/
structure Options where
  LogName : String
  Disabled : Bool
  Endpoint : String
  Secure : Bool
  Region : String
  Bucket : String
  AccessKey : String
  SecretKey : String
deriving Repr, DecidableEq

/-- src/s3.go prefixedKey: fmt.Sprintf("%s/%s", prefix, key). -/
def prefixedKey (pfx : String) (key : String) : String :=
  pfx ++ "/" ++ key

/-- The S3 wrapper state: the options snapshot plus the lifecycle state
(cancellable context, wait-group pending count). -/
structure S3 where
  options : Options
  ctxCancelled : Bool
  wgPending : Nat
deriving Repr, DecidableEq

/-- Construction failure kinds of src/s3.go New: the ErrDisabled sentinel,
or a wrapped minio.New failure. -/
inductive NewError where
  | disabled
  | failedCreate (cause : String)
deriving Repr, DecidableEq

/-- src/s3.go New: returns ErrDisabled before any backend session setup
when options.Disabled; otherwise consults the backend session outcome and
wraps its failure, or returns the wrapper state. -/
def New (options : Options) (backend : Except String Unit) : Except NewError S3 :=
  if options.Disabled then
    Except.error NewError.disabled
  else
    match backend with
    | Except.error cause => Except.error (NewError.failedCreate cause)
    | Except.ok _ => Except.ok { options := options, ctxCancelled := false, wgPending := 0 }

/-- src/s3.go S3.PresignedGetObject: presigns options.Bucket / prefixedKey. -/
def S3.PresignedGetObject (e : S3) (pfx : String) (key : String) : ObjectRequest :=
  { bucket := e.options.Bucket, objectName := prefixedKey pfx key }

/-- src/s3.go S3.GetObject. -/
def S3.GetObject (e : S3) (pfx : String) (key : String) : ObjectRequest :=
  { bucket := e.options.Bucket, objectName := prefixedKey pfx key }

/-- src/s3.go S3.PutObject: caller-supplied contentType is placed in the
PutObjectOptions. -/
def S3.PutObject (e : S3) (pfx : String) (key : String) (contentType : String) : PutRequest :=
  { bucket := e.options.Bucket, objectName := prefixedKey pfx key, contentType := contentType }

/-- src/s3.go S3.DeleteObject. -/
def S3.DeleteObject (e : S3) (pfx : String) (key : String) : ObjectRequest :=
  { bucket := e.options.Bucket, objectName := prefixedKey pfx key }

/-- src/s3.go S3.MakeBucket: the caller-supplied bucket is passed to the
backend unchanged. -/
def S3.MakeBucket (_e : S3) (bucket : String) : String :=
  bucket

/-- src/s3.go S3.RemoveBucket. -/
def S3.RemoveBucket (_e : S3) (bucket : String) : String :=
  bucket

/-- src/s3.go S3.ListObjects: the listing filter is prefixedKey(prefix, ""). -/
def S3.ListObjects (e : S3) (pfx : String) : ListRequest :=
  { bucket := e.options.Bucket, filter := prefixedKey pfx "" }

/-- src/s3.go S3.Close: cancels the lifecycle context, waits for the
wait-group, returns nil. -/
def S3.Close (e : S3) : S3 × Option String :=
  ({ e with ctxCancelled := true }, none)

end S3Wrap

namespace PartZero

/-! ### Variant B: `src/unnamed/part_000` — bucket-fixed `Client`, no
Disabled flag -/

/-- Options of part_000 (no Disabled field). -/
structure Options where
  LogName : String
  Endpoint : String
  Secure : Bool
  Region : String
  Bucket : String
  AccessKey : String
  SecretKey : String
deriving Repr, DecidableEq

/-- part_000 prefixedKey: fmt.Sprintf("%s/%s", prefix, key). -/
def prefixedKey (pfx : String) (key : String) : String :=
  pfx ++ "/" ++ key

/-- The Client wrapper state of part_000. -/
structure Client where
  options : Options
  ctxCancelled : Bool
  wgPending : Nat
deriving Repr, DecidableEq

/-- part_000 New: no disabled branch; wraps a minio.New failure, else
returns the wrapper state. -/
def New (options : Options) (backend : Except String Unit) : Except String Client :=
  match backend with
  | Except.error cause => Except.error ("failed to create s3 client: " ++ cause)
  | Except.ok _ => Except.ok { options := options, ctxCancelled := false, wgPending := 0 }

/-- part_000 Client.PresignedGetObject. -/
def Client.PresignedGetObject (e : Client) (pfx : String) (key : String) : ObjectRequest :=
  { bucket := e.options.Bucket, objectName := prefixedKey pfx key }

/-- part_000 Client.GetObject. -/
def Client.GetObject (e : Client) (pfx : String) (key : String) : ObjectRequest :=
  { bucket := e.options.Bucket, objectName := prefixedKey pfx key }

/-- part_000 Client.PutObject: caller-supplied contentType is placed in the
PutObjectOptions. -/
def Client.PutObject (e : Client) (pfx : String) (key : String) (contentType : String) :
    PutRequest :=
  { bucket := e.options.Bucket, objectName := prefixedKey pfx key, contentType := contentType }

/-- part_000 Client.DeleteObject. -/
def Client.DeleteObject (e : Client) (pfx : String) (key : String) : ObjectRequest :=
  { bucket := e.options.Bucket, objectName := prefixedKey pfx key }

/-- part_000 Client.MakeBucket: bucket passed to the backend unchanged. -/
def Client.MakeBucket (_e : Client) (bucket : String) : String :=
  bucket

/-- part_000 Client.RemoveBucket. -/
def Client.RemoveBucket (_e : Client) (bucket : String) : String :=
  bucket

/-- part_000 Client.ListObjects: the filter is prefixedKey(prefix, ""). -/
def Client.ListObjects (e : Client) (pfx : String) : ListRequest :=
  { bucket := e.options.Bucket, filter := prefixedKey pfx "" }

/-- part_000 Client.Close: cancel, wait, return nil. -/
def Client.Close (e : Client) : Client × Option String :=
  ({ e with ctxCancelled := true }, none)

end PartZero

namespace PartOne

/-! ### Variant C: `src/unnamed/part_001` — prefix-as-namespace `Client` -/

/-- Options of part_001: a bucket-name Prefix (field `PrefixStr` here
embeds the Go field `Prefix`) instead of a fixed Bucket. -/
structure Options where
  LogName : String
  Endpoint : String
  Secure : Bool
  Region : String
  PrefixStr : String
  AccessKey : String
  SecretKey : String
deriving Repr, DecidableEq

/-- The Client wrapper state of part_001; putContentType embeds the
minio.PutObjectOptions.ContentType fixed at construction. -/
structure Client where
  options : Options
  putContentType : String
  ctxCancelled : Bool
  wgPending : Nat
deriving Repr, DecidableEq

/-- part_001 New: no disabled branch; putOpts.ContentType is fixed to
"application/octet-stream" at construction. -/
def New (options : Options) (backend : Except String Unit) : Except String Client :=
  match backend with
  | Except.error cause => Except.error ("failed to create s3 client: " ++ cause)
  | Except.ok _ =>
      Except.ok { options := options, putContentType := "application/octet-stream",
                  ctxCancelled := false, wgPending := 0 }

/-- part_001 Client.PresignedGetObject: backend bucket is Prefix+bucket,
key unmodified. -/
def Client.PresignedGetObject (e : Client) (bucket : String) (key : String) : ObjectRequest :=
  { bucket := e.options.PrefixStr ++ bucket, objectName := key }

/-- part_001 Client.MakeBucket: backend bucket is Prefix+bucket. -/
def Client.MakeBucket (e : Client) (bucket : String) : String :=
  e.options.PrefixStr ++ bucket

/-- part_001 Client.RemoveBucket: backend bucket is Prefix+bucket. -/
def Client.RemoveBucket (e : Client) (bucket : String) : String :=
  e.options.PrefixStr ++ bucket

/-- part_001 Client.GetObject. -/
def Client.GetObject (e : Client) (bucket : String) (key : String) : ObjectRequest :=
  { bucket := e.options.PrefixStr ++ bucket, objectName := key }

/-- part_001 Client.PutObject: no contentType argument; the construction-
time putOpts are used. -/
def Client.PutObject (e : Client) (bucket : String) (key : String) : PutRequest :=
  { bucket := e.options.PrefixStr ++ bucket, objectName := key,
    contentType := e.putContentType }

/-- part_001 Client.ListObjects: caller-supplied subprefix is the filter. -/
def Client.ListObjects (e : Client) (bucket : String) (subpfx : String) : ListRequest :=
  { bucket := e.options.PrefixStr ++ bucket, filter := subpfx }

/-- part_001 Client.DeleteObject. -/
def Client.DeleteObject (e : Client) (bucket : String) (key : String) : ObjectRequest :=
  { bucket := e.options.PrefixStr ++ bucket, objectName := key }

/-- part_001 Client.Close: cancel, wait, return nil. -/
def Client.Close (e : Client) : Client × Option String :=
  ({ e with ctxCancelled := true }, none)

end PartOne

/-- The five distinct named validation errors shared by both config
variants in src/pkg/config/config.go. -/
inductive ConfigError where
  | EndpointRequired
  | RegionRequired
  | BucketRequired
  | AccessKeyRequired
  | SecretKeyRequired
deriving Repr, DecidableEq

namespace ConfigA

/-! ### Config variant with a Disabled flag (first half of
src/pkg/config/config.go) -/

/-- Config with mapstructure tags and a Disabled flag. -/
structure Config where
  Disabled : Bool
  Endpoint : String
  Secure : Bool
  Region : String
  Bucket : String
  AccessKey : String
  SecretKey : String
deriving Repr, DecidableEq

def DefaultDisabled : Bool := false

def DefaultSecure : Bool := true

def DefaultRegion : String := "auto"

/-- config.New: defaults Disabled/Secure/Region; Go zero values leave the
string fields empty. -/
def New : Config :=
  { Disabled := DefaultDisabled, Secure := DefaultSecure, Region := DefaultRegion,
    Endpoint := "", Bucket := "", AccessKey := "", SecretKey := "" }

/-- config.Validate: when not Disabled, checks endpoint, region, bucket,
access key, secret key in order and returns the first missing-field
error; otherwise succeeds. -/
def Config.Validate (c : Config) : Option ConfigError :=
  if !c.Disabled then
    if c.Endpoint = "" then some ConfigError.EndpointRequired
    else if c.Region = "" then some ConfigError.RegionRequired
    else if c.Bucket = "" then some ConfigError.BucketRequired
    else if c.AccessKey = "" then some ConfigError.AccessKeyRequired
    else if c.SecretKey = "" then some ConfigError.SecretKeyRequired
    else none
  else none

end ConfigA

namespace ConfigB

/-! ### Config variant without a Disabled flag (second half of
src/pkg/config/config.go) -/

/-- Config with yaml tags and no Disabled flag. -/
structure Config where
  Endpoint : String
  Secure : Bool
  Region : String
  Bucket : String
  AccessKey : String
  SecretKey : String
deriving Repr, DecidableEq

def DefaultSecure : Bool := true

def DefaultRegion : String := "auto"

/-- config.New of the second variant. -/
def New : Config :=
  { Secure := DefaultSecure, Region := DefaultRegion,
    Endpoint := "", Bucket := "", AccessKey := "", SecretKey := "" }

/-- config.Validate of the second variant: the same fixed-order
short-circuit checks, unconditionally. -/
def Config.Validate (c : Config) : Option ConfigError :=
  if c.Endpoint = "" then some ConfigError.EndpointRequired
  else if c.Region = "" then some ConfigError.RegionRequired
  else if c.Bucket = "" then some ConfigError.BucketRequired
  else if c.AccessKey = "" then some ConfigError.AccessKeyRequired
  else if c.SecretKey = "" then some ConfigError.SecretKeyRequired
  else none

end ConfigB

/-! ### Claims -/

/-- C1: in both bucket-fixed variants, every object operation
(PresignedGetObject, GetObject, PutObject, DeleteObject) resolves the
backend object key to prefix ++ "/" ++ key, for all strings; in
particular resolve("logs", "2024/01/a.txt") = "logs/2024/01/a.txt". -/
theorem claim_C1_bucket_fixed_key_resolution :
    (∀ (e : S3Wrap.S3) (pfx key : String),
      (e.PresignedGetObject pfx key).objectName = pfx ++ "/" ++ key ∧
      (e.GetObject pfx key).objectName = pfx ++ "/" ++ key ∧
      (∀ ct, (e.PutObject pfx key ct).objectName = pfx ++ "/" ++ key) ∧
      (e.DeleteObject pfx key).objectName = pfx ++ "/" ++ key) ∧
    (∀ (e : PartZero.Client) (pfx key : String),
      (e.PresignedGetObject pfx key).objectName = pfx ++ "/" ++ key ∧
      (e.GetObject pfx key).objectName = pfx ++ "/" ++ key ∧
      (∀ ct, (e.PutObject pfx key ct).objectName = pfx ++ "/" ++ key) ∧
      (e.DeleteObject pfx key).objectName = pfx ++ "/" ++ key) ∧
    S3Wrap.prefixedKey "logs" "2024/01/a.txt" = "logs/2024/01/a.txt" ∧
    PartZero.prefixedKey "logs" "2024/01/a.txt" = "logs/2024/01/a.txt" := by
  refine ⟨fun e pfx key => ⟨rfl, rfl, fun ct => rfl, rfl⟩,
    fun e pfx key => ⟨rfl, rfl, fun ct => rfl, rfl⟩, ?_, ?_⟩ <;> decide

/-- C2: in the prefix-as-namespace variant, every object operation
resolves the backend bucket to PrefixStr ++ bucket (no separator) and
passes the key through unchanged; listing uses the caller-supplied
sub-prefix as the filter; resolve("tenant-", "alpha") yields backend
bucket "tenant-alpha". -/
theorem claim_C2_prefix_namespace_resolution :
    (∀ (e : PartOne.Client) (bucket key subpfx : String),
      (e.PresignedGetObject bucket key).bucket = e.options.PrefixStr ++ bucket ∧
      (e.PresignedGetObject bucket key).objectName = key ∧
      (e.GetObject bucket key).bucket = e.options.PrefixStr ++ bucket ∧
      (e.GetObject bucket key).objectName = key ∧
      (e.PutObject bucket key).bucket = e.options.PrefixStr ++ bucket ∧
      (e.PutObject bucket key).objectName = key ∧
      (e.DeleteObject bucket key).bucket = e.options.PrefixStr ++ bucket ∧
      (e.DeleteObject bucket key).objectName = key ∧
      (e.ListObjects bucket subpfx).bucket = e.options.PrefixStr ++ bucket ∧
      (e.ListObjects bucket subpfx).filter = subpfx) ∧
    "tenant-" ++ "alpha" = "tenant-alpha" := by
  refine ⟨fun e bucket key subpfx =>
    ⟨rfl, rfl, rfl, rfl, rfl, rfl, rfl, rfl, rfl, rfl⟩, ?_⟩
  decide

/-- C3: for every non-disabled configuration, Validate returns the
distinct named error of the first empty field in the fixed order
endpoint, region, bucket, access key, secret key, and succeeds when all
are non-empty; the same holds for the config variant without a disabled
flag. -/
theorem claim_C3_validate_first_missing_field (c : ConfigA.Config)
    (hd : c.Disabled = false) :
    (c.Endpoint = "" → c.Validate = some ConfigError.EndpointRequired) ∧
    (c.Endpoint ≠ "" → c.Region = "" → c.Validate = some ConfigError.RegionRequired) ∧
    (c.Endpoint ≠ "" → c.Region ≠ "" → c.Bucket = "" →
      c.Validate = some ConfigError.BucketRequired) ∧
    (c.Endpoint ≠ "" → c.Region ≠ "" → c.Bucket ≠ "" → c.AccessKey = "" →
      c.Validate = some ConfigError.AccessKeyRequired) ∧
    (c.Endpoint ≠ "" → c.Region ≠ "" → c.Bucket ≠ "" → c.AccessKey ≠ "" →
      c.SecretKey = "" → c.Validate = some ConfigError.SecretKeyRequired) ∧
    (c.Endpoint ≠ "" → c.Region ≠ "" → c.Bucket ≠ "" → c.AccessKey ≠ "" →
      c.SecretKey ≠ "" → c.Validate = none) ∧
    (∀ c2 : ConfigB.Config,
      (c2.Endpoint = "" → c2.Validate = some ConfigError.EndpointRequired) ∧
      (c2.Endpoint ≠ "" → c2.Region = "" → c2.Validate = some ConfigError.RegionRequired) ∧
      (c2.Endpoint ≠ "" → c2.Region ≠ "" → c2.Bucket = "" →
        c2.Validate = some ConfigError.BucketRequired) ∧
      (c2.Endpoint ≠ "" → c2.Region ≠ "" → c2.Bucket ≠ "" → c2.AccessKey = "" →
        c2.Validate = some ConfigError.AccessKeyRequired) ∧
      (c2.Endpoint ≠ "" → c2.Region ≠ "" → c2.Bucket ≠ "" → c2.AccessKey ≠ "" →
        c2.SecretKey = "" → c2.Validate = some ConfigError.SecretKeyRequired) ∧
      (c2.Endpoint ≠ "" → c2.Region ≠ "" → c2.Bucket ≠ "" → c2.AccessKey ≠ "" →
        c2.SecretKey ≠ "" → c2.Validate = none)) := by
  refine ⟨?_, ?_, ?_, ?_, ?_, ?_, fun c2 => ⟨?_, ?_, ?_, ?_, ?_, ?_⟩⟩ <;> intros <;>
    simp [ConfigA.Config.Validate, ConfigB.Config.Validate, hd, *]

/-- C3 witness: a configuration with disabled=false, endpoint="" and
bucket="" yields EndpointRequired. -/
theorem claim_C3_validate_first_missing_field_witness :
    ({ Disabled := false, Endpoint := "", Secure := true, Region := "auto",
       Bucket := "", AccessKey := "k", SecretKey := "s" } : ConfigA.Config).Validate =
      some ConfigError.EndpointRequired :=
  (claim_C3_validate_first_missing_field _ rfl).1 rfl

/-- C4: every configuration with Disabled = true validates successfully,
whatever the other fields hold. -/
theorem claim_C4_disabled_validate_succeeds (c : ConfigA.Config)
    (hd : c.Disabled = true) : c.Validate = none := by
  simp [ConfigA.Config.Validate, hd]

/-- C4 witness: a disabled configuration with every other field empty
validates successfully. -/
theorem claim_C4_disabled_validate_succeeds_witness :
    ({ Disabled := true, Endpoint := "", Secure := false, Region := "",
       Bucket := "", AccessKey := "", SecretKey := "" } : ConfigA.Config).Validate = none :=
  claim_C4_disabled_validate_succeeds _ rfl

/-- C5: New with Disabled = true fails with the disabled sentinel for
every backend-session outcome (so no backend setup is consulted), and
the sentinel is distinguishable by kind from every construction
failure. -/
theorem claim_C5_new_disabled_sentinel (options : S3Wrap.Options)
    (backend : Except String Unit) (hd : options.Disabled = true) :
    S3Wrap.New options backend = Except.error S3Wrap.NewError.disabled ∧
    ∀ cause, S3Wrap.NewError.disabled ≠ S3Wrap.NewError.failedCreate cause := by
  refine ⟨by simp [S3Wrap.New, hd], fun cause h => ?_⟩
  cases h

/-- C5 witness: a disabled Options value short-circuits construction even
when the backend session would have failed. -/
theorem claim_C5_new_disabled_sentinel_witness :
    S3Wrap.New
      { LogName := "", Disabled := true, Endpoint := "", Secure := true,
        Region := "", Bucket := "", AccessKey := "", SecretKey := "" }
      (Except.error "network unavailable") =
      Except.error S3Wrap.NewError.disabled ∧
    S3Wrap.NewError.disabled ≠ S3Wrap.NewError.failedCreate "x" :=
  ⟨(claim_C5_new_disabled_sentinel _ _ rfl).1,
   (claim_C5_new_disabled_sentinel
      { LogName := "", Disabled := true, Endpoint := "", Secure := true,
        Region := "", Bucket := "", AccessKey := "", SecretKey := "" }
      (Except.error "network unavailable") rfl).2 "x"⟩

/-- C6: config New returns secure=true, region="auto", disabled=false
(where the flag exists) and empty strings elsewhere, and validating it
unchanged fails with EndpointRequired; likewise for the variant without
a disabled flag. -/
theorem claim_C6_defaults_insufficient :
    ConfigA.New.Disabled = false ∧ ConfigA.New.Secure = true ∧
    ConfigA.New.Region = "auto" ∧ ConfigA.New.Endpoint = "" ∧
    ConfigA.New.Bucket = "" ∧ ConfigA.New.AccessKey = "" ∧
    ConfigA.New.SecretKey = "" ∧
    ConfigA.New.Validate = some ConfigError.EndpointRequired ∧
    ConfigB.New.Secure = true ∧ ConfigB.New.Region = "auto" ∧
    ConfigB.New.Endpoint = "" ∧ ConfigB.New.Bucket = "" ∧
    ConfigB.New.AccessKey = "" ∧ ConfigB.New.SecretKey = "" ∧
    ConfigB.New.Validate = some ConfigError.EndpointRequired := by
  decide

/-- C7: the prefix-as-namespace variant fixes the upload content type to
"application/octet-stream" at construction and uses it for every
PutObject; the bucket-fixed variants pass the caller's contentType
through unchanged. -/
theorem claim_C7_put_content_type :
    (∀ (opts : PartOne.Options) (bucket key : String),
      (PartOne.New opts (Except.ok ())).map
          (fun e => (e.PutObject bucket key).contentType) =
        Except.ok "application/octet-stream") ∧
    (∀ (e : S3Wrap.S3) (pfx key ct : String),
      (e.PutObject pfx key ct).contentType = ct) ∧
    (∀ (e : PartZero.Client) (pfx key ct : String),
      (e.PutObject pfx key ct).contentType = ct) :=
  ⟨fun _ _ _ => rfl, fun _ _ _ _ => rfl, fun _ _ _ _ => rfl⟩

/-- C8: MakeBucket and RemoveBucket pass the bucket name through
unchanged in both bucket-fixed variants, and prepend the configured
prefix in the prefix-as-namespace variant. -/
theorem claim_C8_bucket_lifecycle_naming :
    (∀ (e : S3Wrap.S3) (bucket : String),
      e.MakeBucket bucket = bucket ∧ e.RemoveBucket bucket = bucket) ∧
    (∀ (e : PartZero.Client) (bucket : String),
      e.MakeBucket bucket = bucket ∧ e.RemoveBucket bucket = bucket) ∧
    (∀ (e : PartOne.Client) (bucket : String),
      e.MakeBucket bucket = e.options.PrefixStr ++ bucket ∧
      e.RemoveBucket bucket = e.options.PrefixStr ++ bucket) :=
  ⟨fun _ _ => ⟨rfl, rfl⟩, fun _ _ => ⟨rfl, rfl⟩, fun _ _ => ⟨rfl, rfl⟩⟩

/-- C9: in the bucket-fixed variants the resolved key always contains
the "/" separator: empty prefix gives "/" ++ key, empty key gives
prefix ++ "/", ListObjects filters on prefix ++ "/", and no component is
normalized or rejected. -/
theorem claim_C9_separator_always_present :
    (∀ key, S3Wrap.prefixedKey "" key = "/" ++ key) ∧
    (∀ pfx, S3Wrap.prefixedKey pfx "" = pfx ++ "/") ∧
    (∀ pfx key, '/' ∈ (S3Wrap.prefixedKey pfx key).data) ∧
    (∀ (e : S3Wrap.S3) (pfx : String), (e.ListObjects pfx).filter = pfx ++ "/") ∧
    (∀ key, PartZero.prefixedKey "" key = "/" ++ key) ∧
    (∀ pfx, PartZero.prefixedKey pfx "" = pfx ++ "/") ∧
    (∀ pfx key, '/' ∈ (PartZero.prefixedKey pfx key).data) ∧
    (∀ (e : PartZero.Client) (pfx : String), (e.ListObjects pfx).filter = pfx ++ "/") := by
  refine ⟨fun key => ?_, fun pfx => ?_, fun pfx key => ?_, fun e pfx => ?_,
    fun key => ?_, fun pfx => ?_, fun pfx key => ?_, fun e pfx => ?_⟩ <;>
    simp [S3Wrap.prefixedKey, PartZero.prefixedKey, S3Wrap.S3.ListObjects,
      PartZero.Client.ListObjects, String.data_append]

/-- C10: Close always returns a nil error in every variant, after
cancelling the lifecycle context. -/
theorem claim_C10_close_returns_nil :
    (∀ e : S3Wrap.S3, e.Close.2 = none ∧ e.Close.1.ctxCancelled = true) ∧
    (∀ e : PartZero.Client, e.Close.2 = none ∧ e.Close.1.ctxCancelled = true) ∧
    (∀ e : PartOne.Client, e.Close.2 = none ∧ e.Close.1.ctxCancelled = true) :=
  ⟨fun _ => ⟨rfl, rfl⟩, fun _ => ⟨rfl, rfl⟩, fun _ => ⟨rfl, rfl⟩⟩
